import Mathlib

/-!
Verification of pycmpdl (src/pycmpdl.py) against its specification.

The embedding models Python strings as `List Char`; the pure string and
path computations of the source (os.path.join for POSIX, str.find,
str.replace, str.lower, str.endswith, url.split) are translated
faithfully below.  Stateful pieces (filesystem, HTTP responses, the
download worker pool) are modelled as explicit state passed through the
functions, keeping the source's control flow.
-/

namespace Pycmpdl

/-- Convert a Lean string literal to the `List Char` representation used
throughout the development. -/
def str (s : String) : List Char := s.data

/-- Exit code `EXIT_NO_ERROR = 0` (src line 21). -/
def EXIT_NO_ERROR : Nat := 0

/-- Exit code `EXIT_NO_MODPACK = 2` (src line 22). -/
def EXIT_NO_MODPACK : Nat := 2

/-- Exit code `EXIT_UNKNOWN_MANIFEST_VERSION = 3` (src line 23). -/
def EXIT_UNKNOWN_MANIFEST_VERSION : Nat := 3

/-- Python `s.lower()` restricted to the ASCII file names the program
handles. -/
def pyLower (s : List Char) : List Char := s.map Char.toLower

/-- Helper for `pyFind`: index of the first position at which `sub`
is a prefix of the remaining input, counting from `i`. -/
def findIdxAux (s sub : List Char) (i : Nat) : Option Nat :=
  if sub.isPrefixOf s then some i
  else
    match s with
    | [] => none
    | _ :: t => findIdxAux t sub (i + 1)

/-- Python `s.find(sub)`: index of the first occurrence, `-1` if absent. -/
def pyFind (s sub : List Char) : Int :=
  match findIdxAux s sub 0 with
  | some i => Int.ofNat i
  | none => -1

/-- Scanner for `pyReplace`.  `skip` counts characters still to consume
from an occurrence of `old` that was already replaced (Python's
`str.replace` is non-overlapping: it resumes scanning after the
occurrence); at `skip = 0` the scanner tests for an occurrence of
`old` at the current position. -/
def pyReplaceGo (old new : List Char) : List Char → Nat → List Char
  | [], _ => []
  | _ :: t, skip + 1 => pyReplaceGo old new t skip
  | c :: t, 0 =>
    if old.isPrefixOf (c :: t) then new ++ pyReplaceGo old new t (old.length - 1)
    else c :: pyReplaceGo old new t 0

/-- Python `s.replace(old, new)`: replace every non-overlapping
occurrence of `old`, scanning left to right.  All call sites in the
source pass a non-empty `old`; the `old = []` case of Python (which
interleaves `new` between characters) is not exercised and not modelled. -/
def pyReplace (s old new : List Char) : List Char :=
  pyReplaceGo old new s 0

/-- POSIX `os.path.join(a, b)` for two components: an absolute second
component discards the first. -/
def ospJoin (a b : List Char) : List Char :=
  if b.head? = some '/' then b
  else if a = [] ∨ a.getLast? = some '/' then a ++ b
  else a ++ '/' :: b

/-- Python `url.split('/')[-1]`: the suffix after the last slash. -/
def lastSegment (s : List Char) : List Char :=
  (s.reverse.takeWhile (fun c => c != '/')).reverse

/-- `path_is_under root p` holds when `p` is of the form `root/<rest>`,
i.e. `p` lies strictly under the directory `root`. -/
def path_is_under (root p : List Char) : Bool :=
  (root ++ str "/").isPrefixOf p

/-! ## Manifest loading: directory computation (src lines 146-171)

`unzip_modpack` computes
`modpack_basedir = os.path.join(os.getcwd(), manifest['name'])` and
`modpack_cachedir = os.path.join(cache_dir, modpack_basedir)`. -/

/-- The `(modpack_basedir, modpack_cachedir)` pair computed by
`unzip_modpack` (src lines 161-163). -/
def unzip_modpack_dirs (cwd cache_dir name : List Char) : List Char × List Char :=
  let modpack_basedir := ospJoin cwd name
  let modpack_cachedir := ospJoin cache_dir modpack_basedir
  (modpack_basedir, modpack_cachedir)

/-- Claim C1: the recorded `modpack_cachedir` is claimed to lie under the
cache root, of the form `<cacheRoot>/<modpackName>`.  In the code,
`modpack_basedir` is an absolute path (it starts from `os.getcwd()`), so
`os.path.join(cache_dir, modpack_basedir)` discards `cache_dir`
entirely: with working directory `/work`, cache root
`/root/.cache/pycmpdl` and modpack name `Pack`, the extraction directory
is `/work/Pack`, which is not under the cache root and differs from
`<cacheRoot>/Pack`. -/
theorem unzip_modpack_cachedir_escapes_cache :
    (unzip_modpack_dirs (str "/work") (str "/root/.cache/pycmpdl") (str "Pack")).2
      = str "/work/Pack"
    ∧ path_is_under (str "/root/.cache/pycmpdl") (str "/work/Pack") = false
    ∧ (unzip_modpack_dirs (str "/work") (str "/root/.cache/pycmpdl") (str "Pack")).2
      ≠ ospJoin (str "/root/.cache/pycmpdl") (str "Pack") := by
  refine ⟨by decide, by decide, by decide⟩

/-! ## Server instance: start-script scan (src lines 369-384)

`setup_server_instance` iterates over `os.listdir(minecraft_dir)` and
runs `if path_l.find('start'):` — the bare integer truthiness test,
which is true exactly when the result is nonzero, i.e. when `'start'`
is *absent* (`-1`) or present at a position other than 0. -/

/-- The start-script scan of `setup_server_instance`: fold over the
directory listing, keeping the first accepted path (a later candidate
only triggers a warning). -/
def scan_start_script (paths : List (List Char)) (script_ending : List Char) :
    Option (List Char) :=
  paths.foldl
    (fun start_script path =>
      let path_l := pyLower path
      if pyFind path_l (str "start") ≠ 0 then
        if script_ending.isSuffixOf path_l then
          match start_script with
          | none => some path
          | some s => some s
        else start_script
      else start_script)
    none

/-- Whether `setup_server_instance` generates a start script, given the
directory listing, the OS script extension and the user's answer to the
permission prompt. -/
def start_script_generated (paths : List (List Char)) (script_ending : List Char)
    (permission : Bool) : Bool :=
  match scan_start_script paths script_ending with
  | none => permission
  | some _ => false

/-- Claim C3: the scan is claimed to classify a file as a start script
exactly when its lowercased name contains `"start"` and ends with the
OS script extension.  The code's `if path_l.find('start'):` tests the
find result for *nonzero* instead of `>= 0`: the file `start.sh`
(which contains `start` at index 0 and ends in `.sh`) is not
classified, so the code goes on to offer generating a script; while
`setup.sh`, whose name does not contain `start` at all (`find` is
`-1`), is classified as a start script. -/
theorem scan_start_script_truthiness_bug :
    scan_start_script [str "start.sh"] (str ".sh") = none
    ∧ pyFind (pyLower (str "start.sh")) (str "start") = 0
    ∧ (str ".sh").isSuffixOf (pyLower (str "start.sh")) = true
    ∧ start_script_generated [str "start.sh"] (str ".sh") true = true
    ∧ scan_start_script [str "setup.sh"] (str ".sh") = some (str "setup.sh")
    ∧ pyFind (pyLower (str "setup.sh")) (str "start") = -1 := by
  refine ⟨by decide, by decide, by decide, by decide, by decide, by decide⟩

/-! ## Server bundle: file classification (src lines 405-437)

`setup_server_from_zip` classifies each directory entry with an
`install` / `start` / `server` substring cascade, each guarded by the
appropriate extension; the first hit per category wins. -/

/-- The four classification slots filled by `setup_server_from_zip`. -/
structure ServerFiles where
  start_script : Option (List Char)
  install_script : Option (List Char)
  forge_server_jar : Option (List Char)
  forge_install_jar : Option (List Char)
deriving DecidableEq, Repr

/-- One iteration of the classification loop of `setup_server_from_zip`
(src lines 409-437). -/
def classify_step (fs : ServerFiles) (path : List Char) (script_ending : List Char) :
    ServerFiles :=
  let path_l := pyLower path
  if pyFind path_l (str "install") ≥ 0 then
    if script_ending.isSuffixOf path_l then
      match fs.install_script with
      | none => { fs with install_script := some path }
      | some _ => fs
    else if (str ".jar").isSuffixOf path_l then
      match fs.forge_install_jar with
      | none => { fs with forge_install_jar := some path }
      | some _ => fs
    else fs
  else if pyFind path_l (str "start") ≥ 0 then
    if script_ending.isSuffixOf path_l then
      match fs.start_script with
      | none => { fs with start_script := some path }
      | some _ => fs
    else fs
  else if pyFind path_l (str "server") ≥ 0 then
    if (str ".jar").isSuffixOf path_l then
      match fs.forge_server_jar with
      | none => { fs with forge_server_jar := some path }
      | some _ => fs
    else fs
  else fs

/-- The whole classification pass over a directory listing. -/
def classify_files (paths : List (List Char)) (script_ending : List Char) : ServerFiles :=
  paths.foldl (fun fs p => classify_step fs p script_ending) ⟨none, none, none, none⟩

/-- Claim C9: with exactly `ServerStart.sh`, `forge-installer.jar` and
`server.jar` present (POSIX, extension `.sh`), in any listing order, the
classifier assigns `ServerStart.sh` the start-script role,
`forge-installer.jar` the install-jar role and `server.jar` the
server-jar role, and classifies nothing as an install script. -/
theorem classify_files_roles (l : List (List Char))
    (h : l ∈ [str "ServerStart.sh", str "forge-installer.jar", str "server.jar"].permutations') :
    classify_files l (str ".sh")
      = ⟨some (str "ServerStart.sh"), none, some (str "server.jar"),
         some (str "forge-installer.jar")⟩ := by
  revert l
  decide

/-- Witness for `classify_files_roles` at the listing order of the spec. -/
theorem classify_files_roles_w :
    ([str "ServerStart.sh", str "forge-installer.jar", str "server.jar"]
        ∈ [str "ServerStart.sh", str "forge-installer.jar", str "server.jar"].permutations')
    ∧ classify_files [str "ServerStart.sh", str "forge-installer.jar", str "server.jar"]
        (str ".sh")
      = ⟨some (str "ServerStart.sh"), none, some (str "server.jar"),
         some (str "forge-installer.jar")⟩ :=
  ⟨by decide, classify_files_roles _ (by decide)⟩

/-! ## Content Fetcher: `download_file` (src lines 94-116)

The network and the on-disk state are passed explicitly: `resp1` is the
response of the first, non-redirect-following request, `resp2` the
second, streaming response, and `fs` the local filesystem. -/

/-- An HTTP response: its headers and its streamed body (bytes). -/
structure Response where
  headers : List (List Char × List Char)
  body : List Nat
deriving DecidableEq, Repr

/-- `response.headers[k]` lookup; `none` models the key being absent
(in Python, indexing then raises `KeyError`). -/
def headers_get (hs : List (List Char × List Char)) (k : List Char) : Option (List Char) :=
  (hs.find? (fun p => p.1 == k)).map (fun p => p.2)

/-- The local filesystem: files with their byte contents. -/
structure FS where
  files : List (List Char × List Nat)
deriving DecidableEq, Repr

/-- `os.path.exists(p)`. -/
def FS.hasFile (fs : FS) (p : List Char) : Bool :=
  fs.files.any (fun e => e.1 == p)

/-- `os.path.getsize(p)` (0 for a missing file; only read under an
existence check in the source). -/
def FS.getsize (fs : FS) (p : List Char) : Nat :=
  ((fs.files.find? (fun e => e.1 == p)).map (fun e => e.2.length)).getD 0

/-- `open(p, 'wb')` followed by writing `c`: replace the file's content. -/
def FS.write (fs : FS) (p : List Char) (c : List Nat) : FS :=
  ⟨(p, c) :: fs.files.filter (fun e => !(e.1 == p))⟩

/-- Digit-string parser used by `pyInt`. -/
def digitsToNat (l : List Char) : Option Nat :=
  if l = [] then none
  else l.foldl
    (fun acc c => acc.bind (fun n => if c.isDigit then some (10 * n + (c.toNat - 48)) else none))
    (some 0)

/-- Python `int(s)` restricted to optionally-signed decimal literals
(the shape of a `Content-Length` value); `none` models `ValueError`. -/
def pyInt (l : List Char) : Option Int :=
  match l with
  | '-' :: rest => (digitsToNat rest).map (fun n => -(n : Int))
  | _ => (digitsToNat l).map Int.ofNat

/-- The local filename computed by `download_file` (src lines 95-102):
single redirect hop via the `Location` header, last URL segment, joined
under `folder` when given. -/
def local_filename (url : List Char) (folder : Option (List Char)) (resp1 : Response) :
    List Char :=
  let url1 :=
    match headers_get resp1.headers (str "Location") with
    | some l => l
    | none => url
  let fname := lastSegment url1
  match folder with
  | some f => ospJoin f fname
  | none => fname

/-- `download_file(url, folder)` (src lines 94-116).  Returns the local
path together with the possibly-updated filesystem; `Except.error`
models an uncaught Python exception. -/
def download_file (url : List Char) (folder : Option (List Char)) (resp1 resp2 : Response)
    (fs : FS) : Except (List Char) (List Char × FS) :=
  let filename := local_filename url folder resp1
  if fs.hasFile filename then
    match headers_get resp2.headers (str "Content-Length") with
    | none => .error (str "KeyError: \x27Content-Length\x27")
    | some remote_size =>
      match pyInt remote_size with
      | none => .error (str "ValueError")
      | some r =>
        if (fs.getsize filename : Int) = r then .ok (filename, fs)
        else .ok (filename, fs.write filename resp2.body)
  else .ok (filename, fs.write filename resp2.body)

/-- Claim C2 counterexample: the claim says that with an existing local
file and no `Content-Length` on the streaming response, `download_file`
fails open and re-downloads, completing and returning the local path.
In the code, `response.headers['Content-Length']` raises `KeyError`
instead: at this concrete input the call errors and returns no path. -/
theorem download_file_missing_cl_raises :
    download_file (str "http://host/a.jar") none ⟨[], []⟩ ⟨[], [1, 2]⟩
        ⟨[(str "a.jar", [0])]⟩
      = .error (str "KeyError: \x27Content-Length\x27") := by
  rfl

/-- Claim C2 (amended): whenever a file exists at the computed local
path and the streaming response carries no `Content-Length` header,
`download_file` raises `KeyError` (the fetch fails); no re-download
happens and no path is returned. -/
theorem download_file_missing_cl (url : List Char) (folder : Option (List Char))
    (r1 r2 : Response) (fs : FS)
    (hex : fs.hasFile (local_filename url folder r1) = true)
    (hcl : headers_get r2.headers (str "Content-Length") = none) :
    download_file url folder r1 r2 fs = .error (str "KeyError: \x27Content-Length\x27") := by
  unfold download_file
  simp only [hex, if_true, hcl]

/-- Witness for `download_file_missing_cl`. -/
theorem download_file_missing_cl_w :
    (FS.hasFile ⟨[(str "b.jar", [0])]⟩
        (local_filename (str "http://host/b.jar") none ⟨[], []⟩) = true)
    ∧ download_file (str "http://host/b.jar") none ⟨[], []⟩ ⟨[], [5]⟩ ⟨[(str "b.jar", [0])]⟩
      = .error (str "KeyError: \x27Content-Length\x27") :=
  ⟨by decide, download_file_missing_cl _ _ _ _ _ (by decide) (by decide)⟩

/-- Claim C7: when the local file already exists and its byte size
equals the declared content length, `download_file` returns the
existing path with the filesystem untouched — no write occurs. -/
theorem download_file_skips_rewrite (url : List Char) (folder : Option (List Char))
    (r1 r2 : Response) (fs : FS) (s : List Char)
    (hcl : headers_get r2.headers (str "Content-Length") = some s)
    (hex : fs.hasFile (local_filename url folder r1) = true)
    (hsz : pyInt s = some ((fs.getsize (local_filename url folder r1) : Int))) :
    download_file url folder r1 r2 fs = .ok (local_filename url folder r1, fs) := by
  unfold download_file
  simp only [hex, if_true, hcl, hsz, if_pos rfl]

/-- Witness for `download_file_skips_rewrite`. -/
theorem download_file_skips_rewrite_w :
    (headers_get (Response.mk [(str "Content-Length", str "1")] [9]).headers
        (str "Content-Length") = some (str "1"))
    ∧ download_file (str "http://host/a.txt") none ⟨[], []⟩
        ⟨[(str "Content-Length", str "1")], [9]⟩ ⟨[(str "a.txt", [5])]⟩
      = .ok (local_filename (str "http://host/a.txt") none ⟨[], []⟩,
             (⟨[(str "a.txt", [5])]⟩ : FS)) :=
  ⟨by decide,
   download_file_skips_rewrite (str "http://host/a.txt") none ⟨[], []⟩
     ⟨[(str "Content-Length", str "1")], [9]⟩ ⟨[(str "a.txt", [5])]⟩ (str "1")
     (by decide) (by decide) (by decide)⟩

/-! ## Manifest validation and the main dispatch (src lines 146-171, 531-561) -/

/-- A Python value as stored in the parsed JSON manifest (the shapes the
checks distinguish).  `x = PyVal.int 1` models `x is 1` for a
JSON-parsed value: CPython interns small integers, so identity with the
literal `1` coincides with being the integer `1`, and a string or null
is never identical to it. -/
inductive PyVal where
  | int (n : Int)
  | pystr (s : List Char)
  | pynone
deriving DecidableEq, Repr

/-- The manifest fields the validation reads.  `manifestType = none`
models the key being absent (`'manifestType' not in manifest`). -/
structure PyManifest where
  manifestType : Option PyVal
  manifestVersion : PyVal
  name : List Char
deriving DecidableEq, Repr

/-- The modpack archive as the loader sees it: whether a
`manifest.json` entry exists, and the parsed manifest if it does. -/
structure Archive where
  hasManifest : Bool
  manifest : PyManifest
deriving DecidableEq, Repr

/-- The message of the `KeyError` raised by `ZipFile.open` for a
missing entry, compared against verbatim in `main` (src line 535). -/
def zip_missing_manifest_msg : List Char :=
  str "There is no item named \x27manifest.json\x27 in the archive"

/-- Outcome of `unzip_modpack`: an uncaught `KeyError`, a process exit,
or the parsed manifest. -/
inductive UnzipResult where
  | keyErr (msg : List Char)
  | exited (code : Nat)
  | okm (m : PyManifest)
deriving DecidableEq, Repr

/-- `unzip_modpack` (src lines 146-171): open `manifest.json` (a missing
entry raises `KeyError`), reject a wrong/missing `manifestType` with
exit 2, reject `manifestVersion is not 1` with exit 3, otherwise return
the manifest (extraction itself is filesystem I/O, modelled in
`unzip_modpack_dirs` and `copy_overrides`). -/
def unzip_modpack (a : Archive) : UnzipResult :=
  if a.hasManifest = false then .keyErr zip_missing_manifest_msg
  else if ¬ (a.manifest.manifestType = some (PyVal.pystr (str "minecraftModpack"))) then
    .exited EXIT_NO_MODPACK
  else if ¬ (a.manifest.manifestVersion = PyVal.int 1) then
    .exited EXIT_UNKNOWN_MANIFEST_VERSION
  else .okm a.manifest

/-- Process-level outcome of `main` (src lines 531-561). `completed`
means the run reached `download_mods` and the rest of the pipeline. -/
inductive MainOutcome where
  | exited (code : Nat)
  | serverBundle (code : Nat)
  | raised (msg : List Char)
  | completed (code : Nat)
deriving DecidableEq, Repr

/-- Whether `download_mods` ran in this outcome. -/
def ran_downloads : MainOutcome → Bool
  | .completed _ => true
  | _ => false

/-- The `try/except KeyError` dispatch of `main` (src lines 531-561):
on the missing-manifest `KeyError` with `--server`, run
`setup_server_from_zip` and exit 0; on any other `KeyError` with
`--server`, re-raise; without `--server`, exit 2 ("This is no
modpack"); otherwise continue into `download_mods` and exit 0. -/
def main_run (serverMode : Bool) (a : Archive) : MainOutcome :=
  match unzip_modpack a with
  | .keyErr msg =>
    if serverMode then
      if msg = zip_missing_manifest_msg then .serverBundle EXIT_NO_ERROR
      else .raised msg
    else .exited EXIT_NO_MODPACK
  | .exited n => .exited n
  | .okm _ => .completed EXIT_NO_ERROR

/-- Claim C5 counterexample: the claim quantifies over *every* manifest
with `manifestVersion != 1`, but the type check runs first: a manifest
with `manifestType = "other"` and `manifestVersion = 2` exits with the
"not a modpack" status 2, not the "unsupported manifest" status 3. -/
theorem manifest_version_outcome_cex :
    main_run false ⟨true, ⟨some (PyVal.pystr (str "other")), PyVal.int 2, str "Pack"⟩⟩
      = .exited EXIT_NO_MODPACK
    ∧ ¬ (main_run false ⟨true, ⟨some (PyVal.pystr (str "other")), PyVal.int 2, str "Pack"⟩⟩
      = .exited EXIT_UNKNOWN_MANIFEST_VERSION) := by
  refine ⟨rfl, by decide⟩

/-- Claim C5 (amended): every manifest that declares the modpack type
sentinel and whose `manifestVersion` is not `1` makes the pipeline halt
before any component download with the distinct "unsupported manifest"
exit status 3 (different from the "not a modpack" status 2); a manifest
failing the type check halts with status 2 even if its version is also
unsupported. -/
theorem manifest_version_halts (serverMode : Bool) (m : PyManifest)
    (ht : m.manifestType = some (PyVal.pystr (str "minecraftModpack")))
    (hv : ¬ (m.manifestVersion = PyVal.int 1)) :
    main_run serverMode ⟨true, m⟩ = .exited EXIT_UNKNOWN_MANIFEST_VERSION
    ∧ ran_downloads (main_run serverMode ⟨true, m⟩) = false
    ∧ EXIT_UNKNOWN_MANIFEST_VERSION ≠ EXIT_NO_MODPACK := by
  have h1 : unzip_modpack ⟨true, m⟩ = .exited EXIT_UNKNOWN_MANIFEST_VERSION := by
    unfold unzip_modpack
    simp [ht, hv]
  refine ⟨?_, ?_, by decide⟩
  · unfold main_run
    rw [h1]
  · unfold main_run
    rw [h1]
    rfl

/-- Witness for `manifest_version_halts`. -/
theorem manifest_version_halts_w :
    (¬ ((PyVal.int 2) = PyVal.int 1))
    ∧ main_run false ⟨true, ⟨some (PyVal.pystr (str "minecraftModpack")), PyVal.int 2,
        str "Pack"⟩⟩ = .exited EXIT_UNKNOWN_MANIFEST_VERSION
    ∧ ran_downloads (main_run false ⟨true, ⟨some (PyVal.pystr (str "minecraftModpack")),
        PyVal.int 2, str "Pack"⟩⟩) = false
    ∧ EXIT_UNKNOWN_MANIFEST_VERSION ≠ EXIT_NO_MODPACK :=
  ⟨by decide, manifest_version_halts false _ (by decide) (by decide)⟩

/-- Claim C6: for every archive lacking a manifest entry, server mode
enters the archive-as-server-bundle path (`setup_server_from_zip`) and
exits successfully (status 0); without server mode the run terminates
with the "not a modpack" status 2. -/
theorem missing_manifest_dispatch (m : PyManifest) :
    main_run true ⟨false, m⟩ = .serverBundle EXIT_NO_ERROR
    ∧ main_run false ⟨false, m⟩ = .exited EXIT_NO_MODPACK := by
  exact ⟨rfl, rfl⟩

/-! ## Server provisioning without Java (src lines 277-356)

`install_forge_server` downloads the vendor installer, probes for Java,
and on failure prints a remediation banner and falls off the end of the
function — returning Python's `None`.  `install_start_script` then
interpolates that value into the generated settings file. -/

/-- The banner printed when `java` is not found (src lines 294-296;
three adjacent string literals, no newlines). -/
def no_java_message : List Char :=
  List.replicate 57 '*'
    ++ str "    Can\x27t find java. Please install forge by yourself"
    ++ List.replicate 57 '*'

/-- `install_forge_server` (src lines 277-306) with the Java probe and
the installer subprocess abstracted to the `java_available` flag: the
installer download and run are external I/O; the function's value is
the messages it prints plus its return value (`none` models Python
`None`, reached by the bare `return`). -/
def install_forge_server (java_available : Bool) (forge_version : List Char) :
    List (List Char) × Option (List Char) :=
  let forge_jar := str "forge-" ++ forge_version ++ str "-installer.jar"
  if java_available = false then ([no_java_message], none)
  else ([], some (pyReplace forge_jar (str "install") (str "universal")))

/-- Python `f"{x}"` for an optional string: `None` prints as the
four-character text `None`. -/
def pyStr (v : Option (List Char)) : List Char :=
  match v with
  | none => str "None"
  | some s => s

/-- Content of the generated `settings.bat` (src lines 314-321). -/
def settings_bat (forge_server_jar : Option (List Char)) : List Char :=
  str "REM Don\x27t edit these values unless you know what you are doing.\nset SERVER_JAR="
    ++ pyStr forge_server_jar
    ++ str "\n\nREM You can edit these values if you wish.\nset MIN_RAM=1024M\nset MAX_RAM=4096M\nset JAVA_PARAMETERS=-XX:+UseG1GC -Dsun.rmi.dgc.server.gcInterval=2147483646 -XX:+UnlockExperimentalVMOptions -XX:G1NewSizePercent=20 -XX:G1ReservePercent=20 -XX:MaxGCPauseMillis=50 -XX:G1HeapRegionSize=32M -Dfml.readTimeout=180"

/-- Content of the generated `ServerStart.bat` (src lines 324-330). -/
def serverstart_bat : List Char :=
  str "@echo off\n\ncall settings.bat\n\n:start_server\necho Starting Minecraft Server...\njava -server -Xms%MIN_RAM% -Xmx%MAX_RAM% %JAVA_PARAMETERS% -jar %SERVER_JAR% nogui\nexit /B\n\ngoto start_server"

/-- Content of the generated `settings.sh` (src lines 334-341). -/
def settings_sh (forge_server_jar : Option (List Char)) : List Char :=
  str "# Don\x27t edit these values unless you know what you are doing.\nexport SERVER_JAR=\""
    ++ pyStr forge_server_jar
    ++ str "\"\n\n# You can edit these values if you wish.\nexport MIN_RAM=\"1024M\"\nexport MAX_RAM=\"4096M\"\nexport JAVA_PARAMETERS=\"-XX:+UseG1GC -Dsun.rmi.dgc.server.gcInterval=2147483646 -XX:+UnlockExperimentalVMOptions -XX:G1NewSizePercent=20 -XX:G1ReservePercent=20 -XX:MaxGCPauseMillis=50 -XX:G1HeapRegionSize=32M -Dfml.readTimeout=180"

/-- Content of the generated `ServerStart.sh` (src lines 344-352). -/
def serverstart_sh : List Char :=
  str "#!/bin/sh\n\n# Read the settings.\n. ./settings.sh\n\n# Start the server.\nstart_server() \x7b\n    java -server -Xms$\x7bMIN_RAM\x7d -Xmx$\x7bMAX_RAM\x7d $\x7bJAVA_PARAMETERS\x7d -jar $\x7bSERVER_JAR\x7d nogui\n\x7d\n\necho \"Starting SevTech Ages Server...\"\nstart_server"

/-- `install_start_script` (src lines 309-356): the files written into
the instance directory, per OS family. -/
def install_start_script (is_os_windows : Bool) (forge_server_jar : Option (List Char)) :
    List (List Char × List Char) :=
  if is_os_windows then
    [(str "settings.bat", settings_bat forge_server_jar),
     (str "ServerStart.bat", serverstart_bat)]
  else
    [(str "settings.sh", settings_sh forge_server_jar),
     (str "ServerStart.sh", serverstart_sh)]

set_option maxRecDepth 8000

/-- Claim C10: with no Java runtime, `install_forge_server` prints its
remediation banner and returns `None`; feeding that result into
`install_start_script` (when generation is approved) writes a settings
file whose `SERVER_JAR` entry is the literal four-character text
`None` — `set SERVER_JAR=None` on Windows, `export SERVER_JAR="None"`
on POSIX. -/
theorem forge_none_server_jar (v : List Char) :
    install_forge_server false v = ([no_java_message], none)
    ∧ (str "set SERVER_JAR=None\n")
        <:+: (install_start_script true (install_forge_server false v).2).head!.2
    ∧ (str "export SERVER_JAR=\"None\"\n")
        <:+: (install_start_script false (install_forge_server false v).2).head!.2 := by
  refine ⟨rfl, ?_, ?_⟩
  · show (str "set SERVER_JAR=None\n") <:+: (install_start_script true none).head!.2
    decide
  · show (str "export SERVER_JAR=\"None\"\n") <:+: (install_start_script false none).head!.2
    decide

/-! ## Override Materializer: `copy_overrides` (src lines 225-245)

`os.walk` over the overrides tree is modelled by `walkEntries`; for
every subdirectory the destination is
`os.path.join(dirname, subdirname).replace(override_dir, minecraft_dir)`
and likewise for files — note `str.replace` substitutes *every*
occurrence, not only the leading one. -/

/-- A filesystem tree entry: a file with its byte content, or a
directory with its entries. -/
inductive FTree where
  | fileE (name : List Char) (content : List Nat)
  | dirE (name : List Char) (children : List FTree)

/-- The subdirectory names of a directory's entry list
(`dirnames` of an `os.walk` triple). -/
def subdirPairs : List FTree → List (List Char × List FTree)
  | [] => []
  | .fileE _ _ :: rest => subdirPairs rest
  | .dirE n c :: rest => (n, c) :: subdirPairs rest

/-- The files of a directory's entry list, with contents
(`filenames` of an `os.walk` triple, paired with the bytes
`shutil.copyfile` would read). -/
def filePairs : List FTree → List (List Char × List Nat)
  | [] => []
  | .fileE n c :: rest => (n, c) :: filePairs rest
  | .dirE _ _ :: rest => filePairs rest

mutual

/-- `os.walk(p)` (top-down, the default): the triple for `p` followed by
the walks of its subdirectories in order. -/
def walkEntries (p : List Char) (entries : List FTree) :
    List (List Char × List (List Char) × List (List Char × List Nat)) :=
  (p, (subdirPairs entries).map Prod.fst, filePairs entries) :: walkSub p entries

/-- The concatenated walks of the subdirectories among `entries`. -/
def walkSub (p : List Char) : List FTree →
    List (List Char × List (List Char) × List (List Char × List Nat))
  | [] => []
  | .fileE _ _ :: rest => walkSub p rest
  | .dirE n c :: rest => walkEntries (ospJoin p n) c ++ walkSub p rest

end

/-- The effect of `copy_overrides`: directories created by `check_dir`
and files written by `shutil.copyfile`, in traversal order. -/
structure CopyOut where
  dirsMade : List (List Char)
  writes : List (List Char × List Nat)
deriving DecidableEq, Repr

/-- `copy_overrides` (src lines 225-245) over an abstract overrides
tree: for each `os.walk` triple, create the substituted directory for
every subdirectory name, then copy every file to its substituted path. -/
def copy_overrides (override_dir minecraft_dir : List Char) (entries : List FTree) :
    CopyOut :=
  (walkEntries override_dir entries).foldl
    (fun acc triple =>
      let dirname := triple.1
      let acc1 := triple.2.1.foldl
        (fun a subdirname =>
          { a with dirsMade :=
              a.dirsMade ++ [pyReplace (ospJoin dirname subdirname) override_dir minecraft_dir] })
        acc
      triple.2.2.foldl
        (fun a fc =>
          { a with writes :=
              a.writes ++ [(pyReplace (ospJoin dirname fc.1) override_dir minecraft_dir, fc.2)] })
        acc1)
    ⟨[], []⟩

/-- Claim C8 counterexample: the destination is *not* obtained by
substituting only the `overrideRoot` prefix — `str.replace` substitutes
every occurrence.  With `override_dir = /c/o` and
`minecraft_dir = /m`, the override file at relative path `x/c/o/f`
(full path `/c/o/x/c/o/f`, which contains `/c/o` twice) is written to
`/m/x/m/f`, not to `/m/x/c/o/f` as the claim requires. -/
theorem copy_overrides_replace_all_cex :
    (copy_overrides (str "/c/o") (str "/m")
        [.dirE (str "x") [.dirE (str "c") [.dirE (str "o") [.fileE (str "f") [7]]]]]).writes
      = [(str "/m/x/m/f", [7])]
    ∧ (str "/m/x/m/f") ≠ (str "/m") ++ (str "/x/c/o/f") := by
  constructor
  · simp only [copy_overrides, walkEntries, walkSub, subdirPairs, filePairs]
    decide
  · decide

/-- `l.isPrefixOf (l ++ r)` always holds. -/
theorem isPrefixOf_append_self (l r : List Char) : l.isPrefixOf (l ++ r) = true := by
  exact List.isPrefixOf_iff_prefix.mpr (List.prefix_append l r)

/-- A positive `skip` makes the scanner consume that many characters
before resuming the scan. -/
theorem pyReplaceGo_skip (od md : List Char) :
    ∀ x r : List Char, pyReplaceGo od md (x ++ r) x.length = pyReplaceGo od md r 0 := by
  intro x
  induction x with
  | nil => intro r; rfl
  | cons a x ih =>
    intro r
    simp only [List.cons_append, List.length_cons, pyReplaceGo]
    exact ih r

/-- When the pattern heads the string, `pyReplace` substitutes it and
continues on the remainder. -/
theorem pyReplace_head_match (od rel md : List Char) (h : od ≠ []) :
    pyReplace (od ++ rel) od md = md ++ pyReplace rel od md := by
  obtain ⟨o, ot, rfl⟩ : ∃ o ot, od = o :: ot := by
    cases od with
    | nil => exact absurd rfl h
    | cons o ot => exact ⟨o, ot, rfl⟩
  unfold pyReplace
  rw [List.cons_append, pyReplaceGo]
  rw [if_pos]
  · have hlen : (o :: ot).length - 1 = ot.length := by
      simp
    rw [hlen, pyReplaceGo_skip]
  · rw [← List.cons_append]
    exact isPrefixOf_append_self (o :: ot) rel

/-- When the pattern occurs nowhere in the string, `pyReplace` is the
identity. -/
theorem pyReplace_no_occurrence (od md : List Char) (_h : od ≠ []) :
    ∀ rel : List Char, ¬ od <:+: rel → pyReplace rel od md = rel := by
  intro rel
  unfold pyReplace
  induction rel with
  | nil =>
    intro _
    rfl
  | cons c t ih =>
    intro hni
    rw [pyReplaceGo]
    have hp : od.isPrefixOf (c :: t) = false := by
      cases hq : od.isPrefixOf (c :: t) with
      | false => rfl
      | true =>
        exact absurd (List.isPrefixOf_iff_prefix.mp hq).isInfix hni
    rw [if_neg]
    · rw [ih]
      intro hit
      exact hni (List.infix_cons_iff.mpr (Or.inr hit))
    · simp [hp]

/-- Claim C8 (amended): the write path is the source path with every
occurrence of `override_dir` substituted; whenever `override_dir`
occurs in the walked path only as its prefix, that coincides with
prefix substitution, so the file lands at the same relative path under
`minecraft_dir`.  On the spec's synthetic overrides tree
(`overrides/config/a.txt`, `overrides/mods/b.jar`) the materialization
creates `config` and `mods` under the instance root and copies both
files byte-for-byte to their relative paths. -/
theorem copy_overrides_prefix_subst (od rel md : List Char)
    (h1 : od ≠ []) (h2 : ¬ od <:+: rel) :
    pyReplace (od ++ rel) od md = md ++ rel
    ∧ copy_overrides (str "/cache/Pack/overrides") (str "/inst")
        [.dirE (str "config") [.fileE (str "a.txt") [1, 2]],
         .dirE (str "mods") [.fileE (str "b.jar") [3, 4]]]
      = ⟨[str "/inst/config", str "/inst/mods"],
         [(str "/inst/config/a.txt", [1, 2]), (str "/inst/mods/b.jar", [3, 4])]⟩ := by
  constructor
  · rw [pyReplace_head_match od rel md h1, pyReplace_no_occurrence od md h1 rel h2]
  · simp only [copy_overrides, walkEntries, walkSub, subdirPairs, filePairs]
    decide

/-- Witness for `copy_overrides_prefix_subst`. -/
theorem copy_overrides_prefix_subst_w :
    (¬ (str "/o") <:+: (str "/config/a.txt"))
    ∧ pyReplace ((str "/o") ++ (str "/config/a.txt")) (str "/o") (str "/inst")
      = (str "/inst") ++ (str "/config/a.txt") :=
  ⟨by decide,
   (copy_overrides_prefix_subst (str "/o") (str "/config/a.txt") (str "/inst")
     (by decide) (by decide)).1⟩

/-! ## Component Download Engine: `download_mods` (src lines 174-222)

The worker pool is modelled as an interleaving semantics.  Shared
state: the global `download_count` (an `Option Int`; `none` models the
name being unbound, so that reading it raises `NameError`), the work
queue, and the `task_done` count that `Queue.join` waits on.  Atomic
events: each worker's lazy-init *read* (`try: if not download_count`,
src lines 183-187) and its *store* (`download_count = 0`) are separate
events — no lock guards them; the increment `download_count += 1` is a
single event because it runs under `LOCK` (src lines 200-201);
`queue.put`, `queue.get` and `queue.task_done` are atomic per the
`queue` module; `queue.join` fires only when the `task_done` count has
reached the put count.  `downloads` counts completed `download_file`
calls. -/

/-- Program counter of one `download_mod` worker thread. -/
inductive WPC where
  | initRead
  | initWrite (needSet : Bool)
  | waiting
  | working
  | doneInc
deriving DecidableEq, Repr

/-- Shared state of `download_mods`: counter, queue, pending puts, put
and `task_done` counts, completed downloads, the four workers' program
counters, and whether `queue.join()` has returned. -/
structure DLSys where
  counter : Option Int
  queue : List Nat
  toPut : List Nat
  putCount : Nat
  tasksDone : Nat
  downloads : Nat
  workers : List WPC
  joined : Bool
deriving DecidableEq, Repr

/-- One atomic step of worker `i` (src lines 179-204).  A worker at
`waiting` with an empty queue blocks (the step is a no-op). -/
def wstep (s : DLSys) (i : Nat) : DLSys :=
  match s.workers[i]? with
  | none => s
  | some pc =>
    match pc with
    | .initRead =>
      let needSet :=
        match s.counter with
        | none => true
        | some v => v == 0
      { s with workers := s.workers.set i (.initWrite needSet) }
    | .initWrite b =>
      { s with counter := if b then some 0 else s.counter,
               workers := s.workers.set i .waiting }
    | .waiting =>
      match s.queue with
      | [] => s
      | _ :: rest => { s with queue := rest, workers := s.workers.set i .working }
    | .working =>
      { s with counter := some (s.counter.getD 0 + 1),
               downloads := s.downloads + 1,
               workers := s.workers.set i .doneInc }
    | .doneInc =>
      { s with tasksDone := s.tasksDone + 1, workers := s.workers.set i .waiting }

/-- One atomic step of the main thread (src lines 217-220): put the
next descriptor, then block in `queue.join()` until the `task_done`
count equals the put count. -/
def mstep (s : DLSys) : DLSys :=
  match s.toPut with
  | x :: rest =>
    { s with queue := s.queue ++ [x], toPut := rest, putCount := s.putCount + 1 }
  | [] => if s.tasksDone = s.putCount then { s with joined := true } else s

/-- An interleaving event: a step of the main thread or of worker `i`. -/
inductive DLEv where
  | main
  | worker (i : Nat)
deriving DecidableEq, Repr

/-- Dispatch one scheduled event. -/
def dl_step (s : DLSys) (e : DLEv) : DLSys :=
  match e with
  | .main => mstep s
  | .worker i => wstep s i

/-- Run a schedule (a list of interleaved events). -/
def dl_run (s : DLSys) (sched : List DLEv) : DLSys :=
  sched.foldl dl_step s

/-- The state at the start of `download_mods` for a manifest whose
`files` sequence is `items`: counter unbound, empty queue, four workers
about to run their lazy init. -/
def download_mods_init (items : List Nat) : DLSys :=
  ⟨none, [], items, 0, 0, 0, List.replicate 4 WPC.initRead, false⟩

/-- An adverse but legal interleaving for a one-descriptor manifest:
worker 1 reads the unbound counter (deciding it must store 0), worker 0
initializes, takes the item, downloads and increments the counter to 1;
only then does worker 1's pending store land, resetting the counter to
0; worker 0 calls `task_done` and the main thread's `join` returns. -/
def race_sched : List DLEv :=
  [.worker 1, .worker 0, .worker 0, .main, .worker 0, .worker 0, .worker 1,
   .worker 0, .main]

/-- Claim C4: the claim says the final progress counter equals `N`
regardless of worker interleaving.  The `download_count` lazy
initialization (src lines 183-187) is not under `LOCK`: under
`race_sched` the run completes (join returns, one download and one
`task_done` for the one descriptor) with the shared counter equal to 0,
not 1. -/
theorem download_mods_counter_race :
    (dl_run (download_mods_init [0]) race_sched).joined = true
    ∧ (dl_run (download_mods_init [0]) race_sched).downloads = 1
    ∧ (dl_run (download_mods_init [0]) race_sched).tasksDone = 1
    ∧ (dl_run (download_mods_init [0]) race_sched).counter = some 0
    ∧ (dl_run (download_mods_init [0]) race_sched).counter
      ≠ some (([0] : List Nat).length : Int) := by
  refine ⟨rfl, rfl, rfl, rfl, by decide⟩

end Pycmpdl

